import Mathlib

/-!
Shallow embedding of the episode-configuration and evaluation logic of the
ManiSkill2_real2sim fork, from:
  src/mani_skill2/envs/pick_and_place/custom_scenes/move_near_in_scene.py
  src/mani_skill2/envs/pick_and_place/grasp_single_in_scene.py
Machine floats are modelled as exact rationals; Python runtime errors are
modelled by an explicit error type; Python dicts by association lists with
unique keys.
-/

namespace ManiSkill

/-- Python runtime errors raised by the embedded code paths. -/
inductive PyErr where
  | nameErr (ident : String) : PyErr
  | attrErr (ident : String) : PyErr
  | valueErr (msg : String) : PyErr
  | assertionErr (msg : String) : PyErr
  | keyErr (key : String) : PyErr
deriving Repr, DecidableEq

/-- Whether an error is a Python NameError. -/
def PyErr.isNameErr : PyErr → Bool
  | .nameErr _ => true
  | _ => false

/-- A 3-vector of exact rationals (models a numpy float triple). -/
structure Vec3 where
  x : ℚ
  y : ℚ
  z : ℚ
deriving Repr, DecidableEq

/-- Componentwise difference of two 3-vectors (numpy array subtraction). -/
def Vec3.sub (a b : Vec3) : Vec3 := ⟨a.x - b.x, a.y - b.y, a.z - b.z⟩

/-- Componentwise scaling of a 3-vector (numpy array times scalar). -/
def Vec3.smul (a : Vec3) (s : ℚ) : Vec3 := ⟨a.x * s, a.y * s, a.z * s⟩

/-- Squared Euclidean norm of a 3-vector.  `np.linalg.norm v > c` with
`c ≥ 0` is embedded as `v.normSq > c ^ 2`, an exact reformulation. -/
def Vec3.normSq (a : Vec3) : ℚ := a.x ^ 2 + a.y ^ 2 + a.z ^ 2

/-- Value of the `bbox` key of a model record: min and max corners. -/
structure BBoxRec where
  bmin : Vec3
  bmax : Vec3
deriving Repr, DecidableEq

/-- One record of the model database JSON: optional bbox, optional list of
allowed scales, optional density. -/
structure ModelInfo where
  bbox : Option BBoxRec
  scales : Option (List ℚ)
  density : Option ℚ
deriving Repr, DecidableEq

/-- The model database: JSON object keyed by model id, unique keys. -/
abbrev ModelDb := List (String × ModelInfo)

/-- Dictionary lookup on the database (Python `db[k]` succeeds iff present). -/
def ModelDb.find (db : ModelDb) (k : String) : Option ModelInfo :=
  (db.lookup k)

/-- Modelled from the spec: the per-episode random stream is a deterministic
function of the seed (`self._episode_rng`, a seeded numpy RandomState created
by `set_episode_rng`, whose code is outside the given sources).  We model the
generator state as a natural number advanced by a fixed congruential map. -/
def rngNext (s : ℕ) : ℕ := (s * 1103515245 + 12345) % 2147483648

/-- Modelled from the spec: `random_choice(xs, rng)` draws one element of
`xs` from the deterministic stream; on an empty list it fails (numpy raises). -/
def randomChoice {α : Type} (xs : List α) (r : ℕ) : Option α × ℕ :=
  (xs.get? (rngNext r % xs.length), rngNext r)

/-- Modelled from the spec: `rng.uniform(lo, hi)` draws one value in the
interval from the deterministic stream. -/
def rngUniform (lo hi : ℚ) (r : ℕ) : ℚ × ℕ :=
  (lo + (hi - lo) * ((rngNext r % 1000 : ℕ) : ℚ) / 1000, rngNext r)

/-- The attribute state read and written by `_set_model` in both
environments.  `model_id`/`model_scale` hold `none` when the Python attribute
was never assigned (reading it raises AttributeError); `some v` when it holds
value `v`.  `model_scale`s inner `Option` distinguishes Python `None`
(`some none`, the GraspSingle `__init__` value) from a float. -/
structure EnvModelState where
  model_ids : List String
  model_db : ModelDb
  model_id : Option String
  model_scale : Option (Option ℚ)
  model_bbox_size : Option Vec3

/-- Size of the world-frame bounding box recorded by `_set_model` lines
181-184: `(bbox max - bbox min) * model_scale` when the record has a bbox,
Python `None` otherwise (line 186). -/
def bboxSizeOf (info : ModelInfo) (s : ℚ) : Option Vec3 :=
  match info.bbox with
  | some b => some ((b.bmax.sub b.bmin).smul s)
  | none => none

/-- Resolution of the `model_id` argument (`_set_model` lines 164-165): when
absent, draw from the registered list; an empty list makes the draw fail. -/
def resolveModelId (st : EnvModelState) (argId : Option String) (rng : ℕ) :
    Except PyErr (String × ℕ) :=
  match argId with
  | some i => .ok (i, rng)
  | none =>
      match randomChoice st.model_ids rng with
      | (some i, r) => .ok (i, r)
      | (none, _) => .error (PyErr.valueErr "a must be non-empty")

/-- Resolution of the `model_scale` argument (`_set_model` lines 170-175):
when absent, look up the scales of the already-updated `self.model_id` in the
database and draw one, or default to 1.0 when the record lists none. -/
def resolveModelScale (st : EnvModelState) (mid : String) (argScale : Option ℚ)
    (rng : ℕ) : Except PyErr (ℚ × ℕ) :=
  match argScale with
  | some s => .ok (s, rng)
  | none =>
      match st.model_db.find mid with
      | none => .error (PyErr.keyErr mid)
      | some info =>
          match info.scales with
          | none => .ok (1, rng)
          | some scales =>
              match randomChoice scales rng with
              | (some s, r) => .ok (s, r)
              | (none, _) => .error (PyErr.valueErr "a must be non-empty")

/-- Embedding of `_set_model(model_id, model_scale)` of GraspSingleInSceneEnv
(grasp_single_in_scene.py lines 150-178) and of MoveNearInSceneEnv
(move_near_in_scene.py lines 160-188); the two bodies are line-identical.
Returns the updated attribute state, the `reconfigure` flag, and the advanced
random stream, or the Python error raised.  Reading an unassigned attribute
(`self.model_id` line 166, `self.model_scale` line 176) raises
AttributeError; the database subscripts raise KeyError on a missing id. -/
def setModel (st : EnvModelState) (argId : Option String) (argScale : Option ℚ)
    (rng : ℕ) : Except PyErr (EnvModelState × Bool × ℕ) :=
  match resolveModelId st argId rng with
  | .error e => .error e
  | .ok (mid, rng1) =>
      match st.model_id with
      | none => .error (PyErr.attrErr "model_id")
      | some prevId =>
          let recId : Bool := mid ≠ prevId
          let st1 := { st with model_id := some mid }
          match resolveModelScale st1 mid argScale rng1 with
          | .error e => .error e
          | .ok (mscale, rng2) =>
              match st1.model_scale with
              | none => .error (PyErr.attrErr "model_scale")
              | some prevScale =>
                  let recScale : Bool := some mscale ≠ prevScale
                  let st2 := { st1 with model_scale := some (some mscale) }
                  match st2.model_db.find mid with
                  | none => .error (PyErr.keyErr mid)
                  | some info =>
                      .ok ({ st2 with model_bbox_size := bboxSizeOf info mscale },
                        recId || recScale, rng2)

/-- The `model_ids` argument of the constructors: a Python str or a list. -/
inductive ModelIdsArg where
  | ofStr (s : String) : ModelIdsArg
  | ofList (l : List String) : ModelIdsArg
deriving Repr, DecidableEq

/-- Embedding of the `MoveNearInSceneEnv.__init__` handling of `model_ids`
(move_near_in_scene.py lines 69-74): a str raises ValueError, an empty list
defaults to the sorted database keys, and fewer than 3 entries fail the
`assert len(model_ids) >= 3` with AssertionError. -/
def moveNearInitModelIds (arg : ModelIdsArg) (db : ModelDb) :
    Except PyErr (List String) :=
  match arg with
  | .ofStr _ =>
      .error (PyErr.valueErr "For MoveNear, model_ids must be a list of strings")
  | .ofList l =>
      let ids := if l.length = 0 then (db.map Prod.fst).mergeSort (· ≤ ·) else l
      if 3 ≤ ids.length then .ok ids
      else .error (PyErr.assertionErr "You need to have at least 3 objects for MoveNear")

/-- Embedding of the `GraspSingleInSceneEnv.__init__` handling of `model_ids`
(grasp_single_in_scene.py lines 68-73): a str is wrapped into a one-element
list, an empty list defaults to the sorted database keys, and the result must
be non-empty (`assert len(model_ids) > 0`). -/
def graspInitModelIds (arg : ModelIdsArg) (db : ModelDb) :
    Except PyErr (List String) :=
  let ids := match arg with
    | .ofStr s => [s]
    | .ofList l => l
  let ids := if ids.length = 0 then (db.map Prod.fst).mergeSort (· ≤ ·) else ids
  if 0 < ids.length then .ok ids
  else .error (PyErr.assertionErr "model_json")

/-- Python values carried by the caller-supplied `options` dict. -/
inductive PyVal where
  | noneV : PyVal
  | ofBool (b : Bool) : PyVal
  | ofRat (q : ℚ) : PyVal
  | ofStr (s : String) : PyVal
deriving Repr, DecidableEq

/-- A Python dict with string keys, modelled as an association list with
unique keys; insertion order is preserved as in CPython. -/
abbrev PyDict := List (String × PyVal)

/-- Python `d.pop(k, None)`: the value stored at `k` (or absence), together
with the dict with that key removed. -/
def PyDict.pop (d : PyDict) (k : String) : Option PyVal × PyDict :=
  (d.lookup k, d.filter (fun kv => kv.1 ≠ k))

/-- Python `d[k] = v`: replace the value at the (unique) occurrence of `k`
in place, or append the new entry at the end. -/
def PyDict.setKey : PyDict → String → PyVal → PyDict
  | [], k, v => [(k, v)]
  | kv :: tl, k, v => if kv.1 = k then (k, v) :: tl else kv :: PyDict.setKey tl k v

/-- The `options.pop("model_id", None)` result as the str-or-None argument
that `_set_model` receives. -/
def PyVal.asStr : Option PyVal → Option String
  | some (.ofStr s) => some s
  | _ => none

/-- The `options.pop("model_scale", None)` result as the float-or-None
argument that `_set_model` receives. -/
def PyVal.asRat : Option PyVal → Option ℚ
  | some (.ofRat q) => some q
  | _ => none

/-- The `options.pop("reconfigure", False)` result as a boolean. -/
def PyVal.asBool : Option PyVal → Bool
  | some (.ofBool b) => b
  | _ => false

/-- Arguments that `MoveNearInSceneEnv.reset` pops from the deep copy of
`options` before calling `_set_model` (move_near_in_scene.py lines 135-142):
the `model_id` and `model_scale` overrides. -/
def moveNearPoppedArgs (opts : PyDict) : Option String × Option ℚ :=
  let (_, o1) := opts.pop "obj_init_options"
  let (_, o2) := o1.pop "robot_init_options"
  let (mscaleV, o3) := o2.pop "model_scale"
  let (midV, _) := o3.pop "model_id"
  (PyVal.asStr midV, PyVal.asRat mscaleV)

/-- Embedding of `MoveNearInSceneEnv.reset(seed, options)`
(move_near_in_scene.py lines 130-153).  The body first deep-copies
`options`, so every mutation acts on the copy and the caller-visible dict
(returned as the second component) is the original, unchanged.  After
`_set_model` computes the reconfigure flag, line 148 reads the bare name
`model_ids`, which is neither local nor qualified with `self`, so that path
raises NameError; `self.model_id` and `self.model_scale` are never assigned
by `__init__` (lines 32-90), so on states produced by the constructor
`_set_model` raises AttributeError first.  The call into the base class
reset is never reached, hence the result carries no success payload beyond
`Unit`. -/
def moveNearReset (st : EnvModelState) (seed : ℕ) (opts : PyDict) :
    Except PyErr Unit × PyDict :=
  let args := moveNearPoppedArgs opts
  match setModel st args.1 args.2 seed with
  | .error e => (.error e, opts)
  | .ok _ =>
      -- self.episode_model_ids = model_ids[:3]  (bare, unbound name)
      (.error (PyErr.nameErr "model_ids"), opts)

/-- Arguments that `GraspSingleInSceneEnv.reset` pops from the caller's
`options` dict (grasp_single_in_scene.py lines 137-139), together with the
dict after the three pops: the `model_id` and `model_scale` overrides and
the requested `reconfigure` flag. -/
def graspPoppedArgs (opts : PyDict) :
    (Option String × Option ℚ) × Bool × PyDict :=
  let (mscaleV, o1) := opts.pop "model_scale"
  let (midV, o2) := o1.pop "model_id"
  let (recV, o3) := o2.pop "reconfigure"
  ((PyVal.asStr midV, PyVal.asRat mscaleV), PyVal.asBool recV, o3)

/-- Embedding of `GraspSingleInSceneEnv.reset(seed, options)`
(grasp_single_in_scene.py lines 133-143).  No copy is made: the pops and the
`options["reconfigure"]` write act on the caller's dict, returned as the
second component.  The first component is the state, reconfigure flag and
advanced stream handed to the base class reset. -/
def graspReset (st : EnvModelState) (seed : ℕ) (opts : PyDict) :
    Except PyErr (EnvModelState × Bool × ℕ) × PyDict :=
  let pa := graspPoppedArgs opts
  match setModel st pa.1.1 pa.1.2 seed with
  | .error e => (.error e, pa.2.2)
  | .ok (st1, rec1, rng1) =>
      let rec2 := rec1 || pa.2.1
      (.ok (st1, rec2, rng1), pa.2.2.setKey "reconfigure" (.ofBool rec2))

/-- Componentwise sum of two 3-vectors (numpy array addition). -/
def Vec3.add (a b : Vec3) : Vec3 := ⟨a.x + b.x, a.y + b.y, a.z + b.z⟩

/-- One contact point reported by the physics scene, carrying its impulse. -/
structure ContactPoint where
  impulse : Vec3
deriving Repr, DecidableEq

/-- One contact record: the two actor names and the contact points. -/
structure Contact where
  actor0 : String
  actor1 : String
  points : List ContactPoint
deriving Repr, DecidableEq

/-- Embedding of `np.sum([point.impulse for point in contact.points], axis=0)`. -/
def contactImpulse (c : Contact) : Vec3 :=
  c.points.foldl (fun acc p => acc.add p.impulse) ⟨0, 0, 0⟩

/-- The name of the actor touching the object in this contact, when the
object is one of the two actors (move_near_in_scene.py lines 276-281;
`actor0` is tested first as in the source). -/
def contactOtherActor (objName : String) (c : Contact) : Option String :=
  if c.actor0 = objName then some c.actor1
  else if c.actor1 = objName then some c.actor0
  else none

/-- The loop-body condition of move_near_in_scene.py lines 275-289: this
contact involves the object, the other actor is not a robot link, and the
summed impulse norm exceeds 1e-6 (embedded as the squared comparison).  The
`flag` after the loop with its `break` equals: no contact satisfies this. -/
def contactBlocksLift (objName : String) (robotLinks : List String)
    (c : Contact) : Bool :=
  match contactOtherActor objName c with
  | none => false
  | some other =>
      (!robotLinks.contains other) && ((contactImpulse c).normSq > (1/1000000) ^ 2)

/-- The mutable attributes that `MoveNearInSceneEnv.evaluate` reads and
writes across steps: `self.consecutive_grasp` and
`self.lifted_obj_during_consecutive_grasp`. -/
structure EvalState where
  consecutive_grasp : ℕ
  lifted : Bool
deriving Repr, DecidableEq

/-- The per-step inputs of `MoveNearInSceneEnv.evaluate`: the external grasp
check result, the scene contacts, the robot link names, the object name, the
object's current height and its height after settling, and the
`require_lifting_obj_for_success` configuration flag (set outside the given
sources). -/
structure EvalInputs where
  is_grasped : Bool
  contacts : List Contact
  robotLinks : List String
  objName : String
  objZ : ℚ
  objHeightAfterSettle : ℚ
  requireLifting : Bool
deriving Repr, DecidableEq

/-- The dict returned by `MoveNearInSceneEnv.evaluate`
(move_near_in_scene.py lines 299-305). -/
structure EvalResult where
  is_grasped : Bool
  consecutive_grasp : Bool
  lifted_object : Bool
  lifted_object_significantly : Bool
  success : Bool
deriving Repr, DecidableEq

/-- Embedding of `MoveNearInSceneEnv.evaluate` (move_near_in_scene.py lines 264-305):
update the consecutive-grasp counter and lifted flag from the grasp check,
scan the contacts for a blocking contact, and derive `success` as the lifted
flag when `require_lifting_obj_for_success` is set, else as
`consecutive_grasp >= 5`. -/
def moveNearEvaluate (st : EvalState) (inp : EvalInputs) :
    EvalState × EvalResult :=
  let cg1 := if inp.is_grasped then st.consecutive_grasp + 1 else 0
  let lifted1 := if inp.is_grasped then st.lifted else false
  let flag := !(inp.contacts.any (contactBlocksLift inp.objName inp.robotLinks))
  let consecutiveGraspB := cg1 ≥ 5
  let diffObjHeight := inp.objZ - inp.objHeightAfterSettle
  let lifted2 := lifted1 || flag
  let success := if inp.requireLifting then lifted2 else decide consecutiveGraspB
  (⟨cg1, lifted2⟩,
   { is_grasped := inp.is_grasped,
     consecutive_grasp := decide consecutiveGraspB,
     lifted_object := lifted2,
     lifted_object_significantly := lifted2 && decide (diffObjHeight > 1/50),
     success := success })

/-- One tracked object of a relocation scene as the spec describes it:
settled and current planar position, settled and current height, and the
half-diagonal of its world-frame bounding box. -/
structure SpecObj where
  settledXY : ℚ × ℚ
  currentXY : ℚ × ℚ
  settledZ : ℚ
  currentZ : ℚ
  halfDiag : ℚ
deriving Repr, DecidableEq

/-- A relocation episode as the spec describes it: the tracked objects and
the indices of the designated source and target objects. -/
structure SpecScene where
  objs : List SpecObj
  sourceIdx : ℕ
  targetIdx : ℕ
deriving Repr, DecidableEq

/-- Planar (x/y only) Euclidean distance between two points. -/
noncomputable def planarDist (a b : ℚ × ℚ) : ℝ :=
  Real.sqrt (((a.1 - b.1) ^ 2 + (a.2 - b.2) ^ 2 : ℚ) : ℝ)

/-- Follows the spec's words (§4.3 height-kept), for comparison with the
code's evaluator: no tracked object's current height has dropped more than
0.02 below its settled height. -/
def specHeightKept (sc : SpecScene) : Prop :=
  ∀ o ∈ sc.objs, o.settledZ - o.currentZ ≤ 1/50

/-- Planar displacement of one tracked object since settling. -/
noncomputable def specDisplacement (o : SpecObj) : ℝ :=
  planarDist o.settledXY o.currentXY

/-- Follows the spec's words (§4.3 moved-correct-object), for comparison
with the code's evaluator: every non-source object's planar displacement is
strictly less than half the source object's planar displacement. -/
def specMovedCorrectObj (sc : SpecScene) : Prop :=
  ∀ i, ∀ hi : i < sc.objs.length, i ≠ sc.sourceIdx →
    ∀ hs : sc.sourceIdx < sc.objs.length,
      specDisplacement (sc.objs.get ⟨i, hi⟩) <
        specDisplacement (sc.objs.get ⟨sc.sourceIdx, hs⟩) / 2

/-- Follows the spec's words (§4.3 near-target), for comparison with the
code's evaluator: the planar source-to-target distance is below the sum of
the two bounding-box half-diagonals plus 0.04. -/
def specNearTarget (sc : SpecScene) : Prop :=
  ∀ hs : sc.sourceIdx < sc.objs.length, ∀ ht : sc.targetIdx < sc.objs.length,
    planarDist (sc.objs.get ⟨sc.sourceIdx, hs⟩).currentXY
        (sc.objs.get ⟨sc.targetIdx, ht⟩).currentXY <
      ((sc.objs.get ⟨sc.targetIdx, ht⟩).halfDiag : ℝ) +
        ((sc.objs.get ⟨sc.sourceIdx, hs⟩).halfDiag : ℝ) + 1/25

/-- Follows the spec's words (§4.3 closest-to-target), for comparison with
the code's evaluator: the source is closer to the target than to every other
tracked object, up to a 0.03 tolerance. -/
def specClosestToTarget (sc : SpecScene) : Prop :=
  ∀ hs : sc.sourceIdx < sc.objs.length, ∀ ht : sc.targetIdx < sc.objs.length,
    ∀ i, ∀ hi : i < sc.objs.length, i ≠ sc.sourceIdx → i ≠ sc.targetIdx →
      planarDist (sc.objs.get ⟨sc.sourceIdx, hs⟩).currentXY
          (sc.objs.get ⟨sc.targetIdx, ht⟩).currentXY <
        planarDist (sc.objs.get ⟨sc.sourceIdx, hs⟩).currentXY
            (sc.objs.get ⟨i, hi⟩).currentXY + 3/100

/-- Follows the spec's words (§4.3 `success`), for comparison with the
code's evaluator: the logical AND of the four relocation predicates. -/
def specFourPredicateSuccess (sc : SpecScene) : Prop :=
  specHeightKept sc ∧ specMovedCorrectObj sc ∧ specNearTarget sc ∧
    specClosestToTarget sc

/-- The state of the tracked object that the settling code reads or writes:
position, linear velocity, angular velocity.  The physics engine itself is
external; one simulation step is an oracle function on this state. -/
structure ObjWorld where
  pos : Vec3
  vel : Vec3
  angVel : Vec3
deriving Repr, DecidableEq

/-- Embedding of `_settle(t)` (move_near_in_scene.py lines 190-193 and
grasp_single_in_scene.py lines 180-183): step the scene
`int(self.sim_freq * t)` times. -/
def settleSim (stepF : ObjWorld → ObjWorld) (simFreq : ℕ) (t : ℚ)
    (w : ObjWorld) : ObjWorld :=
  stepF^[(⌊(simFreq : ℚ) * t⌋).toNat] w

/-- The object state measured for the escalation test: the state after the
locked 0.5 s drop, the velocity zeroing of lines 228-232, and the second
0.5 s interval (move_near_in_scene.py lines 224-233; identical in
grasp_single_in_scene.py lines 211-220).  `stepLocked` is the engine step
with x/y rotation locked, `stepFree` the unlocked step. -/
def settleMeasuredWorld (stepLocked stepFree : ObjWorld → ObjWorld)
    (simFreq : ℕ) (w0 : ObjWorld) : ObjWorld :=
  let w1 := settleSim stepLocked simFreq (1/2) w0
  let w2 := { w1 with vel := ⟨0, 0, 0⟩, angVel := ⟨0, 0, 0⟩ }
  settleSim stepFree simFreq (1/2) w2

/-- The settling tail of `MoveNearInSceneEnv._initialize_actors`
(move_near_in_scene.py lines 224-241): after the second interval, when
`np.linalg.norm(velocity) > 1e-3 or np.linalg.norm(angular_velocity) > 1e-2`
(embedded as the squared comparisons), settle once more for 1.5 s; nothing
follows.  Returns the final object state, the list of durations passed to
`_settle`, and the recorded `obj_height_after_settle`. -/
def moveNearInitActorsSettle (stepLocked stepFree : ObjWorld → ObjWorld)
    (simFreq : ℕ) (w0 : ObjWorld) : ObjWorld × List ℚ × ℚ :=
  let w3 := settleMeasuredWorld stepLocked stepFree simFreq w0
  if w3.vel.normSq > (1/1000) ^ 2 ∨ w3.angVel.normSq > (1/100) ^ 2 then
    let w4 := settleSim stepFree simFreq (3/2) w3
    (w4, [1/2, 1/2, 3/2], w4.pos.z)
  else
    (w3, [1/2, 1/2], w3.pos.z)

/-- The settling tail of `GraspSingleInSceneEnv._initialize_actors`
(grasp_single_in_scene.py lines 211-226): same structure, but the one-shot
escalation advances for another 0.5 s. -/
def graspInitActorsSettle (stepLocked stepFree : ObjWorld → ObjWorld)
    (simFreq : ℕ) (w0 : ObjWorld) : ObjWorld × List ℚ :=
  let w3 := settleMeasuredWorld stepLocked stepFree simFreq w0
  if w3.vel.normSq > (1/1000) ^ 2 ∨ w3.angVel.normSq > (1/100) ^ 2 then
    (settleSim stepFree simFreq (1/2) w3, [1/2, 1/2, 1/2])
  else
    (w3, [1/2, 1/2])

/-- Embedding of `compute_dense_reward(info)` (move_near_in_scene.py lines 307-311 and
grasp_single_in_scene.py lines 256-260): 1.0 when `info["success"]`, else
0.0. -/
def computeDenseReward (info : EvalResult) : ℚ :=
  if info.success then 1 else 0

/-- Embedding of `compute_normalized_dense_reward` (move_near_in_scene.py lines 313-314
and grasp_single_in_scene.py lines 262-263): the dense reward divided by the
fixed maximum 1.0. -/
def computeNormalizedDenseReward (info : EvalResult) : ℚ :=
  computeDenseReward info / 1

/-- One run of the episode configuration of GraspSingleInSceneEnv with no
caller overrides: `reset` seeds the episode stream and calls
`_set_model(None, None)` (grasp_single_in_scene.py lines 133-143, 150-178),
and the initial planar position is drawn as
`[-0.2, 0.2] + rng.uniform(-0.05, 0.05, [2])`
(grasp_single_in_scene.py line 124).  Returns the resolved model id, scale,
planar position, and the post-reset attribute state. -/
def graspResolveEpisode (st : EnvModelState) (seed : ℕ) :
    Except PyErr (String × ℚ × (ℚ × ℚ) × EnvModelState) :=
  match setModel st none none seed with
  | .error e => .error e
  | .ok (st1, _, rng1) =>
      let (dx, rng2) := rngUniform (-1/20) (1/20) rng1
      let (dy, _) := rngUniform (-1/20) (1/20) rng2
      -- extraction of the values `_set_model` stored; after a successful
      -- `_set_model` both attributes are assigned
      match st1.model_id, st1.model_scale with
      | some mid, some (some mscale) =>
          .ok (mid, mscale, (-1/5 + dx, 1/5 + dy), st1)
      | _, _ => .error (PyErr.attrErr "model_id")

/-! Helper lemmas about the dict model, the random stream and `setModel`. -/

theorem lookup_filter_self (d : PyDict) (k : String) :
    (d.filter (fun kv => kv.1 ≠ k)).lookup k = none := by
  induction d with
  | nil => rfl
  | cons kv tl ih =>
      obtain ⟨k1, v1⟩ := kv
      by_cases h : k1 = k
      · rw [List.filter_cons_of_neg (by simp [h])]
        exact ih
      · rw [List.filter_cons_of_pos (by simp [h]), List.lookup_cons,
          beq_eq_false_iff_ne.mpr (Ne.symm h)]
        exact ih

theorem lookup_filter_ne (d : PyDict) (k j : String) (h : k ≠ j) :
    (d.filter (fun kv => kv.1 ≠ j)).lookup k = d.lookup k := by
  induction d with
  | nil => rfl
  | cons kv tl ih =>
      obtain ⟨k1, v1⟩ := kv
      by_cases hj : k1 = j
      · subst hj
        rw [List.filter_cons_of_neg (by simp), List.lookup_cons,
          beq_eq_false_iff_ne.mpr h]
        exact ih
      · rw [List.filter_cons_of_pos (by simp [hj]), List.lookup_cons,
          List.lookup_cons]
        cases hbeq : (k == k1)
        · exact ih
        · rfl

theorem lookup_setKey_self (d : PyDict) (k : String) (v : PyVal) :
    (d.setKey k v).lookup k = some v := by
  induction d with
  | nil => exact List.lookup_cons_self
  | cons kv tl ih =>
      obtain ⟨k1, v1⟩ := kv
      by_cases h : k1 = k
      · show List.lookup k (if k1 = k then (k, v) :: tl else _) = some v
        rw [if_pos h]
        exact List.lookup_cons_self
      · show List.lookup k (if k1 = k then _ else (k1, v1) :: PyDict.setKey tl k v) =
          some v
        rw [if_neg h, List.lookup_cons, beq_eq_false_iff_ne.mpr (Ne.symm h)]
        exact ih

theorem lookup_setKey_ne (d : PyDict) (k j : String) (v : PyVal) (h : k ≠ j) :
    (d.setKey j v).lookup k = d.lookup k := by
  induction d with
  | nil =>
      show List.lookup k [(j, v)] = none
      rw [List.lookup_cons, beq_eq_false_iff_ne.mpr h]
      rfl
  | cons kv tl ih =>
      obtain ⟨k1, v1⟩ := kv
      by_cases hj : k1 = j
      · subst hj
        show List.lookup k (if k1 = k1 then (k1, v) :: tl else _) =
          List.lookup k ((k1, v1) :: tl)
        rw [if_pos rfl, List.lookup_cons, List.lookup_cons,
          beq_eq_false_iff_ne.mpr h]
      · show List.lookup k (if k1 = j then _ else (k1, v1) :: PyDict.setKey tl j v) =
          List.lookup k ((k1, v1) :: tl)
        rw [if_neg hj, List.lookup_cons, List.lookup_cons]
        cases hbeq : (k == k1)
        · exact ih
        · rfl

theorem randomChoice_ne_nil {α : Type} (xs : List α) (r : ℕ) (h : xs ≠ []) :
    ∃ a, randomChoice xs r = (some a, rngNext r) := by
  unfold randomChoice
  have hl : 0 < xs.length := List.length_pos.mpr h
  have hm : rngNext r % xs.length < xs.length := Nat.mod_lt _ hl
  exact ⟨xs.get ⟨_, hm⟩, by rw [List.get?_eq_get hm]⟩

theorem setModel_explicit {st : EnvModelState} (i : String) (s : ℚ) (rng : ℕ)
    {pid : String} {prevScale : Option ℚ} {info : ModelInfo}
    (h1 : st.model_id = some pid) (h2 : st.model_scale = some prevScale)
    (h3 : st.model_db.find i = some info) :
    setModel st (some i) (some s) rng =
      .ok ({ st with
             model_id := some i, model_scale := some (some s),
             model_bbox_size := bboxSizeOf info s },
           (decide (i ≠ pid) || decide (some s ≠ prevScale)), rng) := by
  unfold setModel resolveModelId resolveModelScale
  simp only [h1, h2, h3]

theorem setModel_ok_inv {st : EnvModelState} {argId : Option String}
    {argScale : Option ℚ} {rng : ℕ} {st1 : EnvModelState} {rec : Bool}
    {rng2 : ℕ}
    (h : setModel st argId argScale rng = .ok (st1, rec, rng2)) :
    ∃ mid rng1 mscale prevId prevScale info,
      resolveModelId st argId rng = .ok (mid, rng1) ∧
      st.model_id = some prevId ∧
      resolveModelScale { st with model_id := some mid } mid argScale rng1 =
        .ok (mscale, rng2) ∧
      st.model_scale = some prevScale ∧
      st.model_db.find mid = some info ∧
      st1 = { st with
              model_id := some mid, model_scale := some (some mscale),
              model_bbox_size := bboxSizeOf info mscale } ∧
      rec = (decide (mid ≠ prevId) || decide (some mscale ≠ prevScale)) := by
  unfold setModel at h
  split at h
  · exact absurd h (by simp)
  case _ mid rng1 heqId =>
    split at h
    · exact absurd h (by simp)
    case _ prevId heqPrev =>
      dsimp only at h
      split at h
      · exact absurd h (by simp)
      case _ mscale rng2a heqScale =>
        split at h
        · exact absurd h (by simp)
        case _ prevScale heqPrevScale =>
          split at h
          · exact absurd h (by simp)
          case _ info heqInfo =>
            simp only [Except.ok.injEq, Prod.mk.injEq] at h
            obtain ⟨h1, h2, h3⟩ := h
            subst h3
            exact ⟨mid, rng1, mscale, prevId, prevScale, info, heqId, heqPrev,
              heqScale, heqPrevScale, heqInfo, h1.symm, h2.symm⟩

/-! Claim theorems. -/

/-- C8: for every evaluation result, the dense reward is 1.0 when `success`
is true and 0.0 otherwise, and the normalized reward (division by the fixed
maximum 1.0) equals the dense reward. -/
theorem reward_sparse_and_normalized_identity :
    ∀ info : EvalResult,
      computeDenseReward info = (if info.success then 1 else 0) ∧
      computeNormalizedDenseReward info = computeDenseReward info := by
  intro info
  exact ⟨rfl, div_one _⟩

/-- C10: constructing MoveNearInSceneEnv with `model_ids` given as a string
raises ValueError for every string value, whereas GraspSingleInSceneEnv
accepts a string by wrapping it into a one-element list. -/
theorem modelIds_string_argument :
    (∀ (s : String) (db : ModelDb),
      moveNearInitModelIds (.ofStr s) db =
        .error (PyErr.valueErr "For MoveNear, model_ids must be a list of strings")) ∧
    (∀ (s : String) (db : ModelDb), graspInitModelIds (.ofStr s) db = .ok [s]) := by
  constructor
  · intro s db
    rfl
  · intro s db
    rfl

/-- C4: counterexample.  Supplying three identical model identifiers (only
one distinct id, fewer than 3 distinct) does not make configuration fail:
`MoveNearInSceneEnv.__init__` only checks `len(model_ids) >= 3`, so the
claimed failure on fewer than 3 distinct candidates does not occur, and no
ConfigurationError type exists in the code. -/
theorem moveNearInit_accepts_nondistinct :
    moveNearInitModelIds (.ofList ["a", "a", "a"]) [] = .ok ["a", "a", "a"] ∧
    (["a", "a", "a"] : List String).dedup.length = 1 := by
  exact ⟨rfl, rfl⟩

/-- C4 (amended): `MoveNearInSceneEnv.__init__` raises AssertionError (there
is no ConfigurationError in the code) exactly when fewer than 3 model
identifiers, counted with multiplicity, are supplied — or remain after
defaulting an empty argument to the database keys; no position/orientation
array check exists in this constructor. -/
theorem moveNearInit_length_assertion :
    (∀ (l : List String) (db : ModelDb), 3 ≤ l.length →
      moveNearInitModelIds (.ofList l) db = .ok l) ∧
    (∀ (l : List String) (db : ModelDb), l ≠ [] → l.length < 3 →
      moveNearInitModelIds (.ofList l) db =
        .error (PyErr.assertionErr "You need to have at least 3 objects for MoveNear")) ∧
    (∀ db : ModelDb, db.length < 3 →
      moveNearInitModelIds (.ofList []) db =
        .error (PyErr.assertionErr "You need to have at least 3 objects for MoveNear")) := by
  refine ⟨?_, ?_, ?_⟩
  · intro l db h3
    have h0 : ¬ l.length = 0 := by omega
    simp [moveNearInitModelIds, h0, h3]
  · intro l db hne hlt
    have h0 : ¬ l.length = 0 := by
      simpa [List.length_eq_zero] using hne
    have h3 : ¬ 3 ≤ l.length := by omega
    simp [moveNearInitModelIds, h0, h3]
  · intro db hlt
    simp [moveNearInitModelIds]
    omega

/-- C4 (witness): the amended theorem applied at concrete inputs: a
two-element list fails the length assertion, a three-element list passes. -/
theorem moveNearInit_length_assertion_app :
    moveNearInitModelIds (.ofList ["a", "b"]) [] =
      .error (PyErr.assertionErr "You need to have at least 3 objects for MoveNear") ∧
    moveNearInitModelIds (.ofList ["a", "b", "c"]) [] = .ok ["a", "b", "c"] :=
  ⟨moveNearInit_length_assertion.2.1 ["a", "b"] [] (by decide) (by decide),
   moveNearInit_length_assertion.1 ["a", "b", "c"] [] (by decide)⟩

/-- Concrete evaluator inputs for comparing the two success notions: grasped
for the sixth consecutive step, no contacts, and the object 0.05 below its
settled height. -/
def fourPredInp : EvalInputs :=
  { is_grasped := true, contacts := [], robotLinks := [], objName := "obj",
    objZ := 4/5, objHeightAfterSettle := 17/20, requireLifting := false }

/-- Concrete relocation scene matching `fourPredInp`: the source object
(index 0) dropped 0.05 below its settled height, so the spec-side
height-kept predicate is false. -/
def fourPredScene : SpecScene :=
  { objs := [
      { settledXY := (0, 0), currentXY := (0, 0), settledZ := 17/20,
        currentZ := 4/5, halfDiag := 1/10 },
      { settledXY := (1, 0), currentXY := (1, 0), settledZ := 17/20,
        currentZ := 17/20, halfDiag := 1/10 },
      { settledXY := (0, 1), currentXY := (0, 1), settledZ := 17/20,
        currentZ := 17/20, halfDiag := 1/10 } ],
    sourceIdx := 0, targetIdx := 1 }

/-- C1: counterexample.  At this concrete episode the evaluator of
move_near_in_scene.py returns `success = true` although the four-predicate
conjunction of the spec is false (the source object's height dropped 0.05
below its settled height, violating height-kept), with the evaluator reading
exactly the heights recorded in the scene; hence the evaluator's `success`
is not the AND of the four predicates. -/
theorem evaluate_success_ne_four_predicates :
    (moveNearEvaluate ⟨5, false⟩ fourPredInp).2.success = true ∧
    ¬ specFourPredicateSuccess fourPredScene ∧
    (fourPredScene.objs.get? fourPredScene.sourceIdx).map SpecObj.currentZ =
      some fourPredInp.objZ ∧
    (fourPredScene.objs.get? fourPredScene.sourceIdx).map SpecObj.settledZ =
      some fourPredInp.objHeightAfterSettle := by
  refine ⟨rfl, ?_, rfl, rfl⟩
  rintro ⟨hk, -, -, -⟩
  have hmem : (⟨(0, 0), (0, 0), 17/20, 4/5, 1/10⟩ : SpecObj) ∈
      fourPredScene.objs := by
    simp [fourPredScene]
  have := hk _ hmem
  norm_num at this

/-- C1 (amended): for every evaluator state and inputs, `success` equals the
lifted-during-consecutive-grasp flag when `require_lifting_obj_for_success`
is set and the consecutive-grasp counter test otherwise, and it is
independent of the object's current height — the four relocation predicates
of the spec play no role. -/
theorem evaluate_success_formula :
    ∀ (st : EvalState) (inp : EvalInputs),
      ((moveNearEvaluate st inp).2.success =
        if inp.requireLifting then
          (if inp.is_grasped then st.lifted else false) ||
            !(inp.contacts.any (contactBlocksLift inp.objName inp.robotLinks))
        else
          decide ((if inp.is_grasped then st.consecutive_grasp + 1 else 0) ≥ 5)) ∧
      (∀ z : ℚ, (moveNearEvaluate st { inp with objZ := z }).2.success =
        (moveNearEvaluate st inp).2.success) := by
  intro st inp
  exact ⟨rfl, fun z => rfl⟩

theorem moveNearReset_eq (st : EnvModelState) (seed : ℕ) (opts : PyDict) :
    moveNearReset st seed opts =
      match setModel st (moveNearPoppedArgs opts).1 (moveNearPoppedArgs opts).2
          seed with
      | .error e => (.error e, opts)
      | .ok _ => (.error (PyErr.nameErr "model_ids"), opts) := rfl

theorem graspReset_eq (st : EnvModelState) (seed : ℕ) (opts : PyDict) :
    graspReset st seed opts =
      match setModel st (graspPoppedArgs opts).1.1 (graspPoppedArgs opts).1.2
          seed with
      | .error e => (.error e, (graspPoppedArgs opts).2.2)
      | .ok (st1, rec1, rng1) =>
          (.ok (st1, rec1 || (graspPoppedArgs opts).2.1, rng1),
           ((graspPoppedArgs opts).2.2).setKey "reconfigure"
             (.ofBool (rec1 || (graspPoppedArgs opts).2.1))) := rfl

theorem graspPoppedArgs_dict (opts : PyDict) :
    (graspPoppedArgs opts).2.2 =
      ((opts.filter (fun kv => kv.1 ≠ "model_scale")).filter
        (fun kv => kv.1 ≠ "model_id")).filter
        (fun kv => kv.1 ≠ "reconfigure") := rfl

/-- C9: GraspSingleInSceneEnv.reset mutates the caller-supplied options dict
in place — the model_scale, model_id and reconfigure keys are removed and a
reconfigure entry is written back on a completed reset — whereas
MoveNearInSceneEnv.reset deep-copies the dict first, so the caller's mapping
is returned unchanged. -/
theorem reset_options_aliasing :
    (∀ (st : EnvModelState) (seed : ℕ) (opts : PyDict),
      (moveNearReset st seed opts).2 = opts) ∧
    (∀ (st : EnvModelState) (seed : ℕ) (opts : PyDict),
      (graspReset st seed opts).2.lookup "model_scale" = none ∧
      (graspReset st seed opts).2.lookup "model_id" = none) ∧
    (∀ (st : EnvModelState) (seed : ℕ) (opts : PyDict) st1 rec rng1,
      (graspReset st seed opts).1 = .ok (st1, rec, rng1) →
      (graspReset st seed opts).2.lookup "reconfigure" =
        some (.ofBool rec)) := by
  refine ⟨?_, ?_, ?_⟩
  · intro st seed opts
    rw [moveNearReset_eq]
    cases setModel st (moveNearPoppedArgs opts).1 (moveNearPoppedArgs opts).2
      seed <;> rfl
  · intro st seed opts
    have hms : ((graspPoppedArgs opts).2.2).lookup "model_scale" = none := by
      rw [graspPoppedArgs_dict, lookup_filter_ne _ _ _ (by decide),
        lookup_filter_ne _ _ _ (by decide), lookup_filter_self]
    have hmi : ((graspPoppedArgs opts).2.2).lookup "model_id" = none := by
      rw [graspPoppedArgs_dict, lookup_filter_ne _ _ _ (by decide),
        lookup_filter_self]
    rw [graspReset_eq]
    cases hsm : setModel st (graspPoppedArgs opts).1.1
        (graspPoppedArgs opts).1.2 seed with
    | error e => exact ⟨hms, hmi⟩
    | ok v =>
        obtain ⟨st1, rec1, rng1⟩ := v
        refine ⟨?_, ?_⟩
        · rw [lookup_setKey_ne _ _ _ _ (by decide)]
          exact hms
        · rw [lookup_setKey_ne _ _ _ _ (by decide)]
          exact hmi
  · intro st seed opts st1 rec rng1 h
    rw [graspReset_eq] at h ⊢
    cases hsm : setModel st (graspPoppedArgs opts).1.1
        (graspPoppedArgs opts).1.2 seed with
    | error e =>
        rw [hsm] at h
        exact absurd h (by simp)
    | ok v =>
        obtain ⟨st1a, rec1a, rng1a⟩ := v
        rw [hsm] at h
        dsimp only at h
        simp only [Except.ok.injEq, Prod.mk.injEq] at h
        obtain ⟨-, hrec, -⟩ := h
        dsimp only
        rw [hrec]
        exact lookup_setKey_self _ _ _

/-- Concrete state of a freshly constructed MoveNearInSceneEnv: the
constructor assigns neither `self.model_id` nor `self.model_scale`. -/
def attr2Db : ModelDb :=
  [("a", ⟨none, none, none⟩), ("b", ⟨none, none, none⟩),
   ("c", ⟨none, none, none⟩)]

/-- Attribute state after `MoveNearInSceneEnv.__init__` with three
registered models. -/
def attr2St : EnvModelState :=
  { model_ids := ["a", "b", "c"], model_db := attr2Db, model_id := none,
    model_scale := none, model_bbox_size := none }

/-- C2: counterexample.  On the state a fresh constructor produces, the
first reset raises AttributeError (reading the never-assigned
`self.model_id` inside `_set_model`), not NameError, so the claim that
every reset raises a NameError fails at this input. -/
theorem moveNearReset_raises_attr_not_name :
    (moveNearReset attr2St 0 []).1 = .error (PyErr.attrErr "model_id") ∧
    PyErr.isNameErr (PyErr.attrErr "model_id") = false := ⟨rfl, rfl⟩

/-- C2 (amended): every MoveNearInSceneEnv.reset raises before returning,
so no reset ever completes; on every state with the `model_id` attribute
unassigned — which includes every state the constructor produces — the
error is an AttributeError from `_set_model`, and whenever `_set_model`
completes, the unbound bare name `model_ids` of line 148 raises NameError. -/
theorem moveNearReset_never_completes :
    (∀ (st : EnvModelState) (seed : ℕ) (opts : PyDict),
      ∃ e, (moveNearReset st seed opts).1 = .error e) ∧
    (∀ (st : EnvModelState) (seed : ℕ) (opts : PyDict),
      st.model_id = none → st.model_ids ≠ [] →
      (moveNearReset st seed opts).1 = .error (PyErr.attrErr "model_id")) ∧
    (∀ (st : EnvModelState) (seed : ℕ) (opts : PyDict) st1 rec rng1,
      setModel st (moveNearPoppedArgs opts).1 (moveNearPoppedArgs opts).2
          seed = .ok (st1, rec, rng1) →
      (moveNearReset st seed opts).1 = .error (PyErr.nameErr "model_ids")) := by
  refine ⟨?_, ?_, ?_⟩
  · intro st seed opts
    rw [moveNearReset_eq]
    cases setModel st (moveNearPoppedArgs opts).1 (moveNearPoppedArgs opts).2
        seed with
    | error e => exact ⟨e, rfl⟩
    | ok v => exact ⟨PyErr.nameErr "model_ids", rfl⟩
  · intro st seed opts hid hne
    rw [moveNearReset_eq]
    have hsm : setModel st (moveNearPoppedArgs opts).1
        (moveNearPoppedArgs opts).2 seed = .error (PyErr.attrErr "model_id") := by
      unfold setModel
      obtain ⟨mid, rngA, hres⟩ :
          ∃ mid rngA, resolveModelId st (moveNearPoppedArgs opts).1 seed =
            .ok (mid, rngA) := by
        cases harg : (moveNearPoppedArgs opts).1 with
        | some i => exact ⟨i, seed, by simp [resolveModelId]⟩
        | none =>
            obtain ⟨a, ha⟩ := randomChoice_ne_nil st.model_ids seed hne
            exact ⟨a, rngNext seed, by simp [resolveModelId, ha]⟩
      rw [hres, hid]
    rw [hsm]
  · intro st seed opts st1 rec rng1 h
    rw [moveNearReset_eq, h]

/-- C2 (witness): the amended theorem applied at the concrete
constructor-produced state. -/
theorem moveNearReset_never_completes_app :
    (moveNearReset attr2St 3 []).1 = .error (PyErr.attrErr "model_id") :=
  moveNearReset_never_completes.2.1 attr2St 3 [] rfl (by decide)

/-- Concrete database whose only record has no bbox entry. -/
def nb5Db : ModelDb := [("m", ⟨none, none, none⟩)]

/-- Concrete attribute state for configuring against `nb5Db`. -/
def nb5St : EnvModelState :=
  { model_ids := ["m"], model_db := nb5Db, model_id := some "x",
    model_scale := some none, model_bbox_size := none }

/-- C5: counterexample.  The record of model "m" has no bbox, yet
`_set_model` succeeds on it: it stores `model_bbox_size = None` instead of
failing, so configuring a model without a bbox does not fail. -/
theorem setModel_missing_bbox_succeeds :
    (nb5Db.find "m").map ModelInfo.bbox = some none ∧
    setModel nb5St (some "m") (some 1) 0 =
      .ok ({ nb5St with
             model_id := some "m", model_scale := some (some 1),
             model_bbox_size := none }, true, 0) := ⟨rfl, rfl⟩

/-- C5 (amended): for every model whose database record has no bbox entry,
`_set_model` succeeds and records `model_bbox_size = None` (no error is
raised; the bounding-box size is simply absent). -/
theorem setModel_missing_bbox_general :
    ∀ (st : EnvModelState) (i : String) (s : ℚ) (rng : ℕ)
      (pid : String) (prevScale : Option ℚ) (info : ModelInfo),
      st.model_id = some pid → st.model_scale = some prevScale →
      st.model_db.find i = some info → info.bbox = none →
      setModel st (some i) (some s) rng =
        .ok ({ st with
               model_id := some i, model_scale := some (some s),
               model_bbox_size := none },
             (decide (i ≠ pid) || decide (some s ≠ prevScale)), rng) := by
  intro st i s rng pid prevScale info h1 h2 h3 hb
  have hbs : bboxSizeOf info s = none := by
    unfold bboxSizeOf
    rw [hb]
  rw [setModel_explicit i s rng h1 h2 h3, hbs]

/-- C5 (witness): the amended theorem applied at a concrete bbox-less
record. -/
theorem setModel_missing_bbox_general_app :
    setModel nb5St (some "m") (some 2) 5 =
      .ok ({ nb5St with
             model_id := some "m", model_scale := some (some 2),
             model_bbox_size := none }, true, 5) :=
  setModel_missing_bbox_general nb5St "m" 2 5 "x" none ⟨none, none, none⟩
    rfl rfl rfl rfl

theorem graspPoppedArgs_of_lookups {opts : PyDict} {i : String} {s : ℚ}
    (h1 : opts.lookup "model_id" = some (.ofStr i))
    (h2 : opts.lookup "model_scale" = some (.ofRat s))
    (h3 : opts.lookup "reconfigure" = none) :
    (graspPoppedArgs opts).1.1 = some i ∧ (graspPoppedArgs opts).1.2 = some s ∧
      (graspPoppedArgs opts).2.1 = false := by
  refine ⟨?_, ?_, ?_⟩
  · show PyVal.asStr
      ((opts.filter (fun kv => kv.1 ≠ "model_scale")).lookup "model_id") = some i
    rw [lookup_filter_ne _ _ _ (by decide), h1]
    rfl
  · show PyVal.asRat (opts.lookup "model_scale") = some s
    rw [h2]
    rfl
  · show PyVal.asBool
      (((opts.filter (fun kv => kv.1 ≠ "model_scale")).filter
        (fun kv => kv.1 ≠ "model_id")).lookup "reconfigure") = false
    rw [lookup_filter_ne _ _ _ (by decide), lookup_filter_ne _ _ _ (by decide),
      h3]
    rfl

/-- C3: the resolved `reconfigure` flag of `_set_model` is true iff the
resolved model id or resolved scale differs from the previously stored
values; the reset-level flag additionally ORs in the caller's explicit
request; and resetting twice in a row with the same explicit model id and
scale overrides (and no explicit reconfigure request) yields
`reconfigure = false` the second time. -/
theorem reconfigure_iff_changed :
    (∀ (st : EnvModelState) argId argScale rng st1 rec rng2,
      setModel st argId argScale rng = .ok (st1, rec, rng2) →
      (rec = true ↔
        (st1.model_id ≠ st.model_id ∨ st1.model_scale ≠ st.model_scale))) ∧
    (∀ (st : EnvModelState) (seed : ℕ) (opts : PyDict) st1 recSM rng1,
      setModel st (graspPoppedArgs opts).1.1 (graspPoppedArgs opts).1.2 seed =
        .ok (st1, recSM, rng1) →
      (graspReset st seed opts).1 =
        .ok (st1, recSM || (graspPoppedArgs opts).2.1, rng1)) ∧
    (∀ (st : EnvModelState) (seed1 seed2 : ℕ) (i : String) (s : ℚ)
      (opts : PyDict) st1 rec1 rng1,
      opts.lookup "model_id" = some (.ofStr i) →
      opts.lookup "model_scale" = some (.ofRat s) →
      opts.lookup "reconfigure" = none →
      (graspReset st seed1 opts).1 = .ok (st1, rec1, rng1) →
      ∃ st2, (graspReset st1 seed2 opts).1 = .ok (st2, false, seed2)) := by
  refine ⟨?_, ?_, ?_⟩
  · intro st argId argScale rng st1 rec rng2 h
    obtain ⟨mid, rngX, mscale, prevId, prevScale, info, hId, hPrev, hScale,
      hPrevS, hInfo, hSt1, hRec⟩ := setModel_ok_inv h
    subst hSt1
    subst hRec
    simp [hPrev, hPrevS]
  · intro st seed opts st1 recSM rng1 h
    rw [graspReset_eq, h]
  · intro st seed1 seed2 i s opts st1 rec1 rng1 h1 h2 h3 hok
    obtain ⟨ha1, ha2, ha3⟩ := graspPoppedArgs_of_lookups h1 h2 h3
    rw [graspReset_eq, ha1, ha2] at hok
    cases hsm : setModel st (some i) (some s) seed1 with
    | error e =>
        rw [hsm] at hok
        exact absurd hok (by simp)
    | ok v =>
        obtain ⟨st1a, recA, rngA⟩ := v
        rw [hsm] at hok
        dsimp only at hok
        simp only [Except.ok.injEq, Prod.mk.injEq] at hok
        obtain ⟨hst1, -, -⟩ := hok
        obtain ⟨mid, rngX, mscale, prevId, prevScale, info, hId, hPrev, hScale,
          hPrevS, hInfo, hSt1a, hRec⟩ := setModel_ok_inv hsm
        have hmid : mid = i := by
          unfold resolveModelId at hId
          simp only [Except.ok.injEq, Prod.mk.injEq] at hId
          exact hId.1.symm
        have hmscale : mscale = s := by
          unfold resolveModelScale at hScale
          simp only [Except.ok.injEq, Prod.mk.injEq] at hScale
          exact hScale.1.symm
        subst hmid
        subst hmscale
        have hst1' : st1 = { st with
            model_id := some mid, model_scale := some (some mscale),
            model_bbox_size := bboxSizeOf info mscale } := hst1.symm.trans hSt1a
        have hset := @setModel_explicit
          { st with
            model_id := some mid, model_scale := some (some mscale),
            model_bbox_size := bboxSizeOf info mscale }
          mid mscale seed2 mid (some mscale) info rfl rfl hInfo
        refine ⟨{ st with
            model_id := some mid, model_scale := some (some mscale),
            model_bbox_size := bboxSizeOf info mscale }, ?_⟩
        rw [hst1', graspReset_eq, ha1, ha2, hset]
        dsimp only
        rw [ha3, Bool.or_false,
          show (decide (mid ≠ mid) || decide (some mscale ≠ some mscale)) =
            false by simp]

/-- Concrete database for the configuration round-trips. -/
def idemDb : ModelDb := [("a", ⟨none, none, none⟩)]

/-- Concrete attribute state before the first explicit-override reset. -/
def idemSt : EnvModelState :=
  { model_ids := ["a", "b", "c"], model_db := idemDb, model_id := some "b",
    model_scale := some none, model_bbox_size := none }

/-- Concrete attribute state after the first explicit-override reset. -/
def idemSt1 : EnvModelState :=
  { model_ids := ["a", "b", "c"], model_db := idemDb, model_id := some "a",
    model_scale := some (some 1), model_bbox_size := none }

/-- Concrete reset options carrying explicit model id and scale overrides. -/
def idemOpts : PyDict := [("model_id", .ofStr "a"), ("model_scale", .ofRat 1)]

/-- C3 (witness): the idempotence conjunct applied at a concrete state: the
first explicit-override reset reports reconfigure = true, the second
reports false. -/
theorem reconfigure_iff_changed_app :
    ∃ st2, (graspReset idemSt1 9 idemOpts).1 = .ok (st2, false, 9) :=
  reconfigure_iff_changed.2.2 idemSt 7 9 "a" 1 idemOpts idemSt1 true 7
    rfl rfl rfl rfl

/-- C9 (witness): the reconfigure write-back conjunct applied at a concrete
completed reset. -/
theorem reset_options_aliasing_app :
    (graspReset idemSt 11 idemOpts).2.lookup "reconfigure" =
      some (.ofBool true) :=
  reset_options_aliasing.2.2 idemSt 11 idemOpts idemSt1 true 11 rfl

theorem sqrt_normSq_gt_iff (v : Vec3) (c : ℚ) (hc : 0 ≤ c) :
    ((c : ℝ) < Real.sqrt ((v.normSq : ℚ) : ℝ)) ↔ ((c ^ 2 : ℚ) < v.normSq) := by
  rw [Real.lt_sqrt (by exact_mod_cast hc)]
  constructor
  · intro hx
    exact_mod_cast hx
  · intro hx
    exact_mod_cast hx

/-- C6: after the second fixed settling interval, both settling procedures
advance the simulation for one extended duration exactly when the measured
linear speed exceeds 1e-3 or the angular speed exceeds 1e-2 (speeds are the
Euclidean norms of the measured velocities), and the duration schedule ends
there — no further retries; the procedures are total functions of the
oracle, so they never raise. -/
theorem settle_escalates_once_iff :
    ∀ (stepL stepF : ObjWorld → ObjWorld) (f : ℕ) (w0 : ObjWorld),
      ((moveNearInitActorsSettle stepL stepF f w0).2.1 = [1/2, 1/2, 3/2] ↔
        (((1/1000 : ℚ) : ℝ) <
          Real.sqrt (((settleMeasuredWorld stepL stepF f w0).vel.normSq : ℚ) : ℝ) ∨
         ((1/100 : ℚ) : ℝ) <
          Real.sqrt (((settleMeasuredWorld stepL stepF f w0).angVel.normSq : ℚ) : ℝ))) ∧
      ((moveNearInitActorsSettle stepL stepF f w0).2.1 = [1/2, 1/2] ↔
        ¬ (((1/1000 : ℚ) : ℝ) <
            Real.sqrt (((settleMeasuredWorld stepL stepF f w0).vel.normSq : ℚ) : ℝ) ∨
           ((1/100 : ℚ) : ℝ) <
            Real.sqrt (((settleMeasuredWorld stepL stepF f w0).angVel.normSq : ℚ) : ℝ))) ∧
      ((graspInitActorsSettle stepL stepF f w0).2 = [1/2, 1/2, 1/2] ↔
        (((1/1000 : ℚ) : ℝ) <
          Real.sqrt (((settleMeasuredWorld stepL stepF f w0).vel.normSq : ℚ) : ℝ) ∨
         ((1/100 : ℚ) : ℝ) <
          Real.sqrt (((settleMeasuredWorld stepL stepF f w0).angVel.normSq : ℚ) : ℝ))) := by
  intro stepL stepF f w0
  rw [sqrt_normSq_gt_iff _ _ (by norm_num), sqrt_normSq_gt_iff _ _ (by norm_num)]
  unfold moveNearInitActorsSettle graspInitActorsSettle
  dsimp only
  by_cases hcond :
      (settleMeasuredWorld stepL stepF f w0).vel.normSq > (1/1000 : ℚ)^2 ∨
      (settleMeasuredWorld stepL stepF f w0).angVel.normSq > (1/100 : ℚ)^2
  · rw [if_pos hcond, if_pos hcond]
    exact ⟨iff_of_true rfl hcond,
      iff_of_false (by simp) (not_not_intro hcond), iff_of_true rfl hcond⟩
  · rw [if_neg hcond, if_neg hcond]
    exact ⟨iff_of_false (by simp) hcond, iff_of_true rfl hcond,
      iff_of_false (by simp) hcond⟩
theorem setModel_none_fwd {st : EnvModelState} {seed rngX rngOut : ℕ}
    {mid : String} {mscale : ℚ} {info : ModelInfo} {pid : String} {ps : Option ℚ}
    (hrc : randomChoice st.model_ids seed = (some mid, rngX))
    (hpid : st.model_id = some pid)
    (hps : st.model_scale = some ps)
    (hInfo : st.model_db.find mid = some info)
    (hscale : (info.scales = none ∧ mscale = 1 ∧ rngOut = rngX) ∨
      (∃ scales, info.scales = some scales ∧
        randomChoice scales rngX = (some mscale, rngOut))) :
    setModel st none none seed =
      .ok ({ st with
             model_id := some mid, model_scale := some (some mscale),
             model_bbox_size := bboxSizeOf info mscale },
           decide (mid ≠ pid) || decide (some mscale ≠ ps), rngOut) := by
  unfold setModel resolveModelId resolveModelScale
  rw [hrc, hpid]
  dsimp only
  rw [hps, hInfo]
  dsimp only
  rcases hscale with ⟨hn, hm, hr⟩ | ⟨scales, hsc, hrc2⟩
  · subst hm
    subst hr
    rw [hn]
  · rw [hsc]
    dsimp only
    rw [hrc2]

/-- C7: for every seed, a completed episode configuration of
GraspSingleInSceneEnv resolves model id, scale and initial planar position
as a function of the seed alone: rerunning the configuration from the
post-episode state with the same seed reproduces exactly the same resolved
values and the same state.  The per-episode random stream is modelled from
the spec as a deterministic function of the seed. -/
theorem resolve_deterministic :
    ∀ (st : EnvModelState) (seed : ℕ) (i : String) (s : ℚ) (xy : ℚ × ℚ)
      (st1 : EnvModelState),
      graspResolveEpisode st seed = .ok (i, s, xy, st1) →
      graspResolveEpisode st1 seed = .ok (i, s, xy, st1) := by
  intro st seed i s xy st1 h
  unfold graspResolveEpisode at h
  cases hsm : setModel st none none seed with
  | error e =>
      rw [hsm] at h
      exact absurd h (by simp)
  | ok v =>
      obtain ⟨stA, recA, rngA⟩ := v
      rw [hsm] at h
      dsimp only at h
      obtain ⟨mid, rngX, mscale, prevId, prevScale, info, hId, hPrev, hScale,
        hPrevS, hInfo, hStA, hRec⟩ := setModel_ok_inv hsm
      subst hStA
      dsimp only at h
      simp only [Except.ok.injEq, Prod.mk.injEq] at h
      obtain ⟨hi, hs, hxy, hst1⟩ := h
      subst hi
      subst hs
      subst hxy
      subst hst1
      have hrc : randomChoice st.model_ids seed = (some mid, rngX) := by
        unfold resolveModelId at hId
        cases hr : randomChoice st.model_ids seed with
        | mk o r =>
            cases o with
            | none =>
                rw [hr] at hId
                exact absurd hId (by simp)
            | some a =>
                rw [hr] at hId
                simp only [Except.ok.injEq, Prod.mk.injEq] at hId
                rw [hId.1, hId.2]
      have hscaleDatum : (info.scales = none ∧ mscale = 1 ∧ rngA = rngX) ∨
          (∃ scales, info.scales = some scales ∧
            randomChoice scales rngX = (some mscale, rngA)) := by
        unfold resolveModelScale at hScale
        dsimp only at hScale
        rw [hInfo] at hScale
        dsimp only at hScale
        cases hsc : info.scales with
        | none =>
            rw [hsc] at hScale
            simp only [Except.ok.injEq, Prod.mk.injEq] at hScale
            exact Or.inl ⟨rfl, hScale.1.symm, hScale.2.symm⟩
        | some scales =>
            rw [hsc] at hScale
            dsimp only at hScale
            refine Or.inr ⟨scales, rfl, ?_⟩
            cases hr2 : randomChoice scales rngX with
            | mk o r =>
                cases o with
                | none =>
                    rw [hr2] at hScale
                    exact absurd hScale (by simp)
                | some a =>
                    rw [hr2] at hScale
                    simp only [Except.ok.injEq, Prod.mk.injEq] at hScale
                    rw [hScale.1, hScale.2]
      have hfwd := @setModel_none_fwd
        { st with
          model_id := some mid, model_scale := some (some mscale),
          model_bbox_size := bboxSizeOf info mscale }
        seed rngX rngA mid mscale info mid (some mscale)
        hrc rfl rfl hInfo hscaleDatum
      unfold graspResolveEpisode
      rw [hfwd]

/-- Concrete database and state for the determinism round-trip. -/
def detDb : ModelDb := [("a", ⟨none, none, none⟩)]

/-- Attribute state of a fresh GraspSingleInSceneEnv over `detDb`. -/
def detSt : EnvModelState :=
  { model_ids := ["a"], model_db := detDb, model_id := some "a",
    model_scale := some none, model_bbox_size := none }

/-- Attribute state after one episode resolution from `detSt` with seed 0. -/
def detSt1 : EnvModelState :=
  { model_ids := ["a"], model_db := detDb, model_id := some "a",
    model_scale := some (some 1), model_bbox_size := none }

/-- The planar position resolved from seed 0 (numerically
(-947/5000, 91/400)), written as the stream draws so that it is judgmentally
equal to the resolver's output. -/
def detXY : ℚ × ℚ :=
  (-1/5 + (rngUniform (-1/20) (1/20) (rngNext 0)).1,
   1/5 + (rngUniform (-1/20) (1/20) (rngNext (rngNext 0))).1)

/-- C7 (witness): the determinism theorem applied at a concrete seed-0
episode: replaying from the post-episode state yields the same resolved
id, scale and position. -/
theorem resolve_deterministic_app :
    graspResolveEpisode detSt1 0 = .ok ("a", 1, detXY, detSt1) :=
  resolve_deterministic detSt 0 "a" 1 detXY detSt1 rfl

end ManiSkill
